import Mathlib

/-!
Shallow embedding of `libmultipart` (src/multipart.c, src/multipart.h) and
verification of its specification claims.

The body buffer is modelled as a total byte function `mem : Nat → Nat` (the
contents of memory starting at the `data` pointer), together with the explicit
`size` argument, because the C parser reads `*ptr` without bounds checks and
its loop condition is `*ptr != '\0'`: which bytes lie *beyond* `size` is
observable.  A byte list `body` of length `N` that happens to be
NUL-terminated corresponds to `memOf body` (zero beyond the list).

C strings (the boundary argument, keys, values, filenames, mimetypes,
lookup names) are byte lists; `cstrTake` truncates at the first NUL exactly
as `strlen`/`strdup`/`strcmp` do.

Unbounded C scans (`while (*ptr != '\n') ptr++`, `strstr`, the outer FSM
loop) are modelled with fuel; `none` means the run was not observed to
terminate with defined behaviour (out of fuel, or C undefined behaviour such
as dereferencing a NULL `strstr` result).  Every claim about a completed
parse is conditioned on a `some` result.

Machine-integer overflow is irrelevant everywhere except the one spot where
the C code computes the `size_t` difference `size - header.offset` that can
wrap; `haystackLen` models that wrap explicitly.
-/

set_option maxRecDepth 8000

namespace Multipart

/-- Byte list of an ASCII/Latin-1 string literal (one byte per character). -/
def bytes (s : String) : List Nat := s.data.map Char.toNat

/-- `strlen`/`strdup`/`strncpy`-style truncation of a byte list at the first
NUL byte: the value of the buffer read as a C string. -/
def cstrTake : List Nat → List Nat
  | [] => []
  | c :: rest => if c = 0 then [] else c :: cstrTake rest

/-- Memory contents of a buffer holding the byte list `l` followed by zero
bytes (a NUL-terminated body). -/
def memOf (l : List Nat) : Nat → Nat := fun i => l.getD i 0

/-- The `len` bytes starting at address `a`. -/
def memSlice (mem : Nat → Nat) (a len : Nat) : List Nat :=
  (List.range len).map fun k => mem (a + k)

/-- `memcmp(mem+i, s, s.length) == 0`.  Also models
`strncmp(ptr, s, strlen s) == 0` for the NUL-free strings the parser
compares against (a NUL under the window makes both report a mismatch). -/
def memcmpEq (mem : Nat → Nat) : Nat → List Nat → Bool
  | _, [] => true
  | i, c :: rest => (mem i == c) && memcmpEq mem (i + 1) rest

/-- First position `j ≥ i` with `mem j = c` (the C scan
`while (*ptr != c) ptr++`), fuelled. -/
def findByteEq (mem : Nat → Nat) (c : Nat) : Nat → Nat → Option Nat
  | i, 0 => if mem i = c then some i else none
  | i, fuel + 1 => if mem i = c then some i else findByteEq mem c (i + 1) fuel

/-- First position `j ≥ i` with `mem j ∈ {'\r', '\n'}` (the mimetype scan),
fuelled. -/
def findCRorLF (mem : Nat → Nat) : Nat → Nat → Option Nat
  | i, 0 => if mem i = 13 ∨ mem i = 10 then some i else none
  | i, fuel + 1 =>
    if mem i = 13 ∨ mem i = 10 then some i else findCRorLF mem (i + 1) fuel

/-- `while (*ptr == '-' || *ptr == '\r' || *ptr == '\n') ptr++` after a
boundary match, fuelled. -/
def skipChars (mem : Nat → Nat) : Nat → Nat → Option Nat
  | i, 0 => if mem i = 45 ∨ mem i = 13 ∨ mem i = 10 then none else some i
  | i, fuel + 1 =>
    if mem i = 45 ∨ mem i = 13 ∨ mem i = 10 then skipChars mem (i + 1) fuel
    else some i

/-- `while (*ptr == '\r' || *ptr == '\n') ptr++` after a stored field value,
fuelled. -/
def skipCRLFrun (mem : Nat → Nat) : Nat → Nat → Option Nat
  | i, 0 => if mem i = 13 ∨ mem i = 10 then none else some i
  | i, fuel + 1 =>
    if mem i = 13 ∨ mem i = 10 then skipCRLFrun mem (i + 1) fuel else some i

/-- `while (*ptr == '\r' && *(ptr+1) == '\n') ptr += 2`, fuelled. -/
def skipCRLFpairs (mem : Nat → Nat) : Nat → Nat → Option Nat
  | i, 0 => if mem i = 13 ∧ mem (i + 1) = 10 then none else some i
  | i, fuel + 1 =>
    if mem i = 13 ∧ mem (i + 1) = 10 then skipCRLFpairs mem (i + 2) fuel
    else some i

/-- `strstr(mem+i, needle)`: first match position, scanning until a NUL byte
in the haystack; `none` for NULL result or exhausted fuel. -/
def strstrFrom (mem : Nat → Nat) (needle : List Nat) : Nat → Nat → Option Nat
  | _, 0 => none
  | i, fuel + 1 =>
    if memcmpEq mem i needle then some i
    else if mem i = 0 then none
    else strstrFrom mem needle (i + 1) fuel

/-- Scan of `k` candidate start positions for a full binary match of
`needle` (the inner loop of `memmem`). -/
def memmemGo (mem : Nat → Nat) (needle : List Nat) : Nat → Nat → Option Nat
  | _, 0 => none
  | i, k + 1 =>
    if memcmpEq mem i needle then some i else memmemGo mem needle (i + 1) k

/-- `memmem(mem+start, len, needle, needle.length)`: binary-safe search of
the first occurrence of `needle` inside the `len` bytes starting at
`start`. -/
def memmemFrom (mem : Nat → Nat) (start len : Nat) (needle : List Nat) :
    Option Nat :=
  if needle.length ≤ len then memmemGo mem needle start (len - needle.length + 1)
  else none

/-- The `size_t` value of `size - i` as the C code computes it for the
`memmem` haystack length: ordinary difference when `i ≤ size`, a wrapped
(huge) value when `i > size`. -/
def haystackLen (size i : Nat) : Nat :=
  if i ≤ size then size - i else 2 ^ 64 - (i - size) % 2 ^ 64

/-- `MAX_FILE_SIZE` from multipart.h (overridable macro; 10 MiB default). -/
def MAX_FILE_SIZE : Nat := 10 * 1024 * 1024

/-- The `MultipartCode` enum from multipart.h. -/
inductive MultipartCode where
  | MULTIPART_OK
  | MEMORY_ALLOC_ERROR
  | INVALID_FORM_BOUNDARY
  | MAX_FILE_SIZE_EXCEEDED
  | NO_FILE_CONTENT_TYPE
  | NO_FILE_CONTENT_DISPOSITION
  | NO_FILE_NAME
  | NO_FILE_DATA
deriving DecidableEq

/-- The `State` enum from multipart.h. -/
inductive State where
  | STATE_BOUNDARY
  | STATE_HEADER
  | STATE_KEY
  | STATE_VALUE
  | STATE_FILENAME
  | STATE_FILE_MIME_HEADER
  | STATE_MIMETYPE
  | STATE_FILE_BODY

/-- `FileHeader` from multipart.h; the string members are nullable `char*`
pointers, hence `Option`. -/
structure FileHeader where
  offset : Nat
  size : Nat
  filename : Option (List Nat)
  mimetype : Option (List Nat)
  field_name : Option (List Nat)

/-- `FormField` from multipart.h (both strings are owned copies and are
always allocated when a field is stored). -/
structure FormField where
  name : List Nat
  value : List Nat

/-- `MultipartForm` from multipart.h: nullable arrays plus separate counts,
exactly as in the struct. -/
structure CMultipartForm where
  files : Option (List FileHeader)
  num_files : Nat
  fields : Option (List FormField)
  num_fields : Nat

/-- The state `multipart_free_form` leaves behind: both arrays freed (NULL)
and both counts zero. -/
def freedForm : CMultipartForm :=
  { files := none, num_files := 0, fields := none, num_fields := 0 }

/-- The per-array precondition for `multipart_free_form`'s entry-freeing
loop to be defined behaviour: a NULL array forces a zero count, and the
count may not exceed the entries actually present. -/
def arrayFreeOk {α : Type} (arr : Option (List α)) (n : Nat) : Bool :=
  match arr with
  | none => n == 0
  | some l => n ≤ l.length

/-- `multipart_free_form` from multipart.c: frees every owned string of the
first `num_files` files and first `num_fields` fields, frees both arrays,
NULLs the pointers and zeroes the counts.  `none` marks the undefined
behaviour of walking a NULL or too-short array. -/
def multipart_free_form (form : CMultipartForm) : Option CMultipartForm :=
  if arrayFreeOk form.files form.num_files ∧ arrayFreeOk form.fields form.num_fields
  then some freedForm else none

/-- The local state of `multipart_parse_form`'s FSM loop: the cursor
(`ptr - data`), the `State`, and the transient variables of the C function.
`key`/`value`/`filename`/`mimetype` hold the C-string values of the
corresponding heap buffers (`none` = NULL pointer). -/
structure Config where
  i : Nat
  state : State
  key_start : Option Nat
  value_start : Option Nat
  key : Option (List Nat)
  value : Option (List Nat)
  filename : Option (List Nat)
  mimetype : Option (List Nat)
  header : FileHeader
  files : List FileHeader
  fields : List FormField

/-- Result of one iteration of the FSM loop body. -/
inductive StepRes where
  | cont (cfg : Config)
  | done (code : MultipartCode) (form : CMultipartForm)
  | stuck

def litContentDisposition : List Nat := bytes "Content-Disposition:"
def litNameQuote : List Nat := bytes "name=\""
def litQuoteSemiFilename : List Nat := bytes "\"; filename=\""
def litSemiFilename : List Nat := bytes "; filename=\""
def litContentTypeSp : List Nat := bytes "Content-Type: "
def litCRLFDashDash : List Nat := bytes "\r\n--"
def litCRLF : List Nat := bytes "\r\n"

/-- `case STATE_BOUNDARY` of the FSM: on a boundary match advance past it and
past any trailing `-`/`\r`/`\n`, else advance one byte. -/
def stepBoundary (mem : Nat → Nat) (bnd : List Nat) (scanFuel : Nat)
    (cfg : Config) : StepRes :=
  if memcmpEq mem cfg.i bnd then
    match skipChars mem (cfg.i + bnd.length) scanFuel with
    | none => .stuck
    | some j => .cont { cfg with i := j, state := .STATE_HEADER }
  else .cont { cfg with i := cfg.i + 1 }

/-- `case STATE_HEADER`: on `Content-Disposition:` jump to just after
`name="` (a NULL `strstr` result is dereferenced by the C code: stuck). -/
def stepHeader (mem : Nat → Nat) (scanFuel : Nat) (cfg : Config) : StepRes :=
  if memcmpEq mem cfg.i litContentDisposition then
    match strstrFrom mem litNameQuote cfg.i scanFuel with
    | none => .stuck
    | some p =>
      .cont { cfg with i := p + 6, key_start := some (p + 6), state := .STATE_KEY }
  else .cont { cfg with i := cfg.i + 1 }

/-- `case STATE_KEY`: at the closing quote capture the field name; branch to
FILENAME when `"; filename="` follows, else skip to past the header line
(and one optional CRLF) and start the value scan. -/
def stepKey (mem : Nat → Nat) (scanFuel : Nat) (cfg : Config) : StepRes :=
  match cfg.key_start with
  | some ks =>
    if mem cfg.i = 34 then
      let k := cstrTake (memSlice mem ks (cfg.i - ks))
      if memcmpEq mem cfg.i litQuoteSemiFilename then
        match strstrFrom mem litSemiFilename cfg.i scanFuel with
        | none => .stuck
        | some p =>
          .cont { cfg with
            i := p + 12, key_start := some (p + 12), key := some k,
            header := { cfg.header with field_name := some k },
            state := .STATE_FILENAME }
      else
        match findByteEq mem 10 cfg.i scanFuel with
        | none => .stuck
        | some j =>
          let j2 := j + 1
          let j3 := if mem j2 = 13 ∧ mem (j2 + 1) = 10 then j2 + 2 else j2
          .cont { cfg with
            i := j3, value_start := some j3, key := some k,
            state := .STATE_VALUE }
    else .cont { cfg with i := cfg.i + 1 }
  | none => .cont { cfg with i := cfg.i + 1 }

/-- `case STATE_VALUE`: at `\r\n--` or the boundary, copy the value, push
the key/value pair, reset the transient strings, skip the CRLF run. -/
def stepValue (mem : Nat → Nat) (bnd : List Nat) (scanFuel : Nat)
    (cfg : Config) : StepRes :=
  match cfg.value_start with
  | some vs =>
    if memcmpEq mem cfg.i litCRLFDashDash || memcmpEq mem cfg.i bnd then
      match cfg.key with
      | none => .stuck
      | some k =>
        let v := cstrTake (memSlice mem vs (cfg.i - vs))
        match skipCRLFrun mem cfg.i scanFuel with
        | none => .stuck
        | some j =>
          .cont { cfg with
            i := j, key := none, value := none,
            fields := cfg.fields ++ [{ name := k, value := v }],
            state := .STATE_BOUNDARY }
    else .cont { cfg with i := cfg.i + 1 }
  | none => .cont { cfg with i := cfg.i + 1 }

/-- `case STATE_FILENAME`: at the closing quote capture the filename into
the pending header, skip past the line and one optional CRLF. -/
def stepFilename (mem : Nat → Nat) (scanFuel : Nat) (cfg : Config) : StepRes :=
  match cfg.key_start with
  | some ks =>
    if mem cfg.i = 34 then
      let fn := cstrTake (memSlice mem ks (cfg.i - ks))
      match findByteEq mem 10 cfg.i scanFuel with
      | none => .stuck
      | some j =>
        let j2 := j + 1
        let j3 := if mem j2 = 13 ∧ mem (j2 + 1) = 10 then j2 + 2 else j2
        .cont { cfg with
          i := j3, filename := some fn,
          header := { cfg.header with filename := some fn },
          state := .STATE_FILE_MIME_HEADER }
    else .cont { cfg with i := cfg.i + 1 }
  | none => .cont { cfg with i := cfg.i + 1 }

/-- `case STATE_FILE_MIME_HEADER`: advance past `Content-Type: `. -/
def stepFileMimeHeader (mem : Nat → Nat) (scanFuel : Nat) (cfg : Config) :
    StepRes :=
  if memcmpEq mem cfg.i litContentTypeSp then
    match strstrFrom mem litContentTypeSp cfg.i scanFuel with
    | none => .stuck
    | some p => .cont { cfg with i := p + 14, state := .STATE_MIMETYPE }
  else .cont { cfg with i := cfg.i + 1 }

/-- `case STATE_MIMETYPE`: capture the mimetype up to the line break, move
past the line and all CRLF pairs; if the boundary follows immediately the
empty file part is dropped (back to BOUNDARY), else scan the file body. -/
def stepMimetype (mem : Nat → Nat) (bnd : List Nat) (scanFuel : Nat)
    (cfg : Config) : StepRes :=
  match findCRorLF mem cfg.i scanFuel with
  | none => .stuck
  | some j =>
    let mt := cstrTake (memSlice mem cfg.i (j - cfg.i))
    match findByteEq mem 10 j scanFuel with
    | none => .stuck
    | some k =>
      match skipCRLFpairs mem (k + 1) scanFuel with
      | none => .stuck
      | some m =>
        if memcmpEq mem m bnd then
          .cont { cfg with
            i := m, value_start := some cfg.i, mimetype := some mt,
            header := { cfg.header with mimetype := some mt },
            state := .STATE_BOUNDARY }
        else
          .cont { cfg with
            i := m, value_start := some cfg.i, mimetype := some mt,
            header := { cfg.header with mimetype := some mt },
            state := .STATE_FILE_BODY }

/-- `case STATE_FILE_BODY`: `memmem` for the next boundary over the
remaining `size - offset` bytes; validate and record the `FileHeader`
(errors tear the whole form down), then skip CRLF pairs at the (unmoved)
cursor. -/
def stepFileBody (mem : Nat → Nat) (size : Nat) (bnd : List Nat)
    (maxFS scanFuel : Nat) (cfg : Config) : StepRes :=
  match memmemFrom mem cfg.i (haystackLen size cfg.i) bnd with
  | none => .done .INVALID_FORM_BOUNDARY freedForm
  | some endpos =>
    if endpos < cfg.i then .done .INVALID_FORM_BOUNDARY freedForm
    else
      if maxFS < endpos - cfg.i then .done .MAX_FILE_SIZE_EXCEEDED freedForm
      else
        match cfg.key with
        | none => .stuck
        | some k =>
          match skipCRLFpairs mem cfg.i scanFuel with
          | none => .stuck
          | some m =>
            .cont { cfg with
              i := m,
              files := cfg.files ++ [{
                offset := cfg.i, size := endpos - cfg.i,
                filename := cfg.header.filename,
                mimetype := cfg.header.mimetype,
                field_name := some k }],
              header := {
                offset := 0, size := 0, filename := none,
                mimetype := none, field_name := none },
              state := .STATE_BOUNDARY }

/-- One iteration of the `switch (state)` body of `multipart_parse_form`. -/
def parseStep (mem : Nat → Nat) (size : Nat) (bnd : List Nat)
    (maxFS scanFuel : Nat) (cfg : Config) : StepRes :=
  match cfg.state with
  | .STATE_BOUNDARY => stepBoundary mem bnd scanFuel cfg
  | .STATE_HEADER => stepHeader mem scanFuel cfg
  | .STATE_KEY => stepKey mem scanFuel cfg
  | .STATE_VALUE => stepValue mem bnd scanFuel cfg
  | .STATE_FILENAME => stepFilename mem scanFuel cfg
  | .STATE_FILE_MIME_HEADER => stepFileMimeHeader mem scanFuel cfg
  | .STATE_MIMETYPE => stepMimetype mem bnd scanFuel cfg
  | .STATE_FILE_BODY => stepFileBody mem size bnd maxFS scanFuel cfg

/-- The `MultipartForm` produced when the loop exits normally. -/
def mkForm (cfg : Config) : CMultipartForm :=
  { files := some cfg.files, num_files := cfg.files.length,
    fields := some cfg.fields, num_fields := cfg.fields.length }

/-- The FSM loop `while (*ptr != '\0') { switch (state) ... }` of
`multipart_parse_form`, fuelled on the number of iterations. -/
def parseLoop (mem : Nat → Nat) (size : Nat) (bnd : List Nat)
    (maxFS scanFuel : Nat) : Nat → Config → Option (MultipartCode × CMultipartForm)
  | 0, _ => none
  | fuel + 1, cfg =>
    if mem cfg.i = 0 then some (.MULTIPART_OK, mkForm cfg)
    else
      match parseStep mem size bnd maxFS scanFuel cfg with
      | .cont cfg2 => parseLoop mem size bnd maxFS scanFuel fuel cfg2
      | .done code form => some (code, form)
      | .stuck => none

/-- The initial FSM configuration of `multipart_parse_form`. -/
def initConfig : Config :=
  { i := 0, state := .STATE_BOUNDARY, key_start := none, value_start := none,
    key := none, value := none, filename := none, mimetype := none,
    header := {
      offset := 0, size := 0, filename := none, mimetype := none,
      field_name := none },
    files := [], fields := [] }

/-- `multipart_parse_form(data, size, boundary, form)` with `mem` the memory
at `data`, `boundary` the NUL-terminated boundary argument (used through
`strlen`, hence `cstrTake`), `maxFS` the `MAX_FILE_SIZE` build constant and
`fuel` bounding the loop/scan lengths.  Heap allocation is assumed to
succeed (the `MEMORY_ALLOC_ERROR` paths are not exercised). -/
def multipart_parse_form (mem : Nat → Nat) (size : Nat) (boundary : List Nat)
    (maxFS fuel : Nat) : Option (MultipartCode × CMultipartForm) :=
  parseLoop mem size (cstrTake boundary) maxFS fuel fuel initConfig

/-- Needle-is-prefix test on byte lists (list end behaves as the end of the
haystack buffer). -/
def bytesMatch : List Nat → List Nat → Bool
  | [], _ => true
  | _ :: _, [] => false
  | c :: ns, h :: hs => (h == c) && bytesMatch ns hs

/-- `strstr(hay, needle)` over a byte-list haystack read as a C string:
first match position, scanning stops at a NUL byte. -/
def strstrList (needle : List Nat) : List Nat → Option Nat
  | [] => if bytesMatch needle [] then some 0 else none
  | c :: rest =>
    if bytesMatch needle (c :: rest) then some 0
    else if c = 0 then none
    else (strstrList needle rest).map fun x => x + 1

/-- `multipart_parse_boundary(body, boundary, size)` from multipart.c:
the boundary is the byte run before the first CRLF; `size` must strictly
exceed `length + 1`; returns the bytes written into the destination
(without the NUL terminator), or `none` for `false`. -/
def multipart_parse_boundary (body : List Nat) (size : Nat) :
    Option (List Nat) :=
  match strstrList litCRLF body with
  | none => none
  | some len => if size ≤ len + 1 then none else some (body.take len)

/-- `tolower` on a byte, as used by `strncasecmp`. -/
def toLowerByte (c : Nat) : Nat := if 65 ≤ c ∧ c ≤ 90 then c + 32 else c

/-- `strncasecmp(hay, needle, needle.length) == 0` for a NUL-free needle. -/
def lowerEqBytes : List Nat → List Nat → Bool
  | [], _ => true
  | _ :: _, [] => false
  | c :: ns, h :: hs => (toLowerByte h == toLowerByte c) && lowerEqBytes ns hs

/-- `multipart_parse_boundary_from_header(content_type, boundary, size)`
from multipart.c.  Outer `none` = undefined behaviour (the code uses the
`strstr` result for `boundary=` without a NULL check); `some none` =
returns `false`; `some (some out)` = returns `true` having written `out`. -/
def multipart_parse_boundary_from_header (ct : List Nat) (size : Nat) :
    Option (Option (List Nat)) :=
  if lowerEqBytes (bytes "multipart/form-data") ct then
    match strstrList (bytes "boundary=") ct with
    | none => none
    | some p =>
      let total_length := (cstrTake ct).length
      let len := total_length - (p + 9)
      if size ≤ len + 2 + 1 then some none
      else some (some ([45, 45] ++ ((cstrTake ct).drop (p + 9)).take len))
  else some none

/-- `strcmp(a, b) == 0` on C strings held as byte lists. -/
def cstrEq (a b : List Nat) : Bool := cstrTake a == cstrTake b

/-- The file-array entries the C lookup loops visit: the first `num_files`
entries of the `files` array. -/
def CMultipartForm.fileArr (form : CMultipartForm) : List FileHeader :=
  (form.files.getD []).take form.num_files

/-- `strcmp(f.field_name, name) == 0` as used by the file lookups (a NULL
`field_name` would be undefined behaviour in C; it never occurs in a parsed
form and is mapped to a mismatch). -/
def fieldNameMatches (f : FileHeader) (name : List Nat) : Bool :=
  match f.field_name with
  | some s => cstrEq s name
  | none => false

/-- `multipart_get_file`: first file whose field name matches. -/
def multipart_get_file (form : CMultipartForm) (name : List Nat) :
    Option FileHeader :=
  form.fileArr.find? fun f => fieldNameMatches f name

/-- `multipart_get_files`: all files whose field name matches, in array
order, plus the count written through the out-parameter; zero matches yield
`(NULL, 0)`. -/
def multipart_get_files (form : CMultipartForm) (name : List Nat) :
    List FileHeader × Nat :=
  let found := form.fileArr.filter fun f => fieldNameMatches f name
  if found.length = 0 then ([], 0) else (found, found.length)


/-- The invariant each recorded `FileHeader` satisfies (claim C1): the span
lies inside the buffer, respects the size limit, and ends exactly at the
first boundary occurrence at or after its start. -/
def FileOk (mem : Nat → Nat) (size maxFS : Nat) (bnd : List Nat)
    (f : FileHeader) : Prop :=
  f.offset + f.size ≤ size ∧ f.size ≤ maxFS ∧
    memmemFrom mem f.offset (size - f.offset) bnd = some (f.offset + f.size)

/-- Concrete body: one file part whose 10-byte span `ABCD<NUL>ÈGH\r\n`
contains an embedded NUL (position 4) and a non-ASCII byte 200
(position 5). -/
def c3body : List Nat :=
  bytes "--B\r\nContent-Disposition: name=\"f\"; filename=\"a\"\r\nContent-Type: x\r\n\r\nABCD\x00ÈGH\r\n--B--\r\n"

/-- The form `multipart_parse_form` produces for `c3body`. -/
def c3form : CMultipartForm :=
  { files := some [{
      offset := 69, size := 10,
      filename := some (bytes "a"),
      mimetype := some (bytes "x"),
      field_name := some (bytes "f") }],
    num_files := 1, fields := some [], num_fields := 0 }

/-- Concrete body: a single field part followed by the closing boundary. -/
def c2body : List Nat :=
  bytes "--B\r\nContent-Disposition: name=\"u\"\r\n\r\nhi\r\n--B\r\n--B--\r\n"

/-- The same `c2body.length` leading bytes, but with a further field part in
the memory beyond them instead of NUL bytes. -/
def c2full : List Nat :=
  c2body ++ bytes "Content-Disposition: name=\"w\"\r\n\r\nyo\r\n--B\r\n"

/-- Concrete body bytes 0..37 of the two-file body sharing field name `f`
(the body is held in four chunks so that byte reads during the kernel
evaluation of the witness stay shallow). -/
def c8part1 : List Nat := bytes "--B\r\nContent-Disposition: name=\"f\"; fi"

/-- Bytes 38..72 of the two-file body. -/
def c8part2 : List Nat := bytes "lename=\"a\"\r\nContent-Type: x\r\n\r\nAA\r\n"

/-- Bytes 73..112 of the two-file body. -/
def c8part3 : List Nat := bytes "--B\r\nContent-Disposition: name=\"f\"; file"

/-- Bytes 113..152 of the two-file body. -/
def c8part4 : List Nat := bytes "name=\"b\"\r\nContent-Type: y\r\n\r\nBB\r\n--B--\r\n"

/-- The 153-byte memory holding the two-file body (chunked equivalent of
`memOf (c8part1 ++ c8part2 ++ c8part3 ++ c8part4)`). -/
def c8mem : Nat → Nat := fun i =>
  if i < 38 then c8part1.getD i 0
  else if i < 73 then c8part2.getD (i - 38) 0
  else if i < 113 then c8part3.getD (i - 73) 0
  else c8part4.getD (i - 113) 0

/-- First file recorded for `c8body`. -/
def c8fileA : FileHeader :=
  { offset := 69, size := 4, filename := some (bytes "a"),
    mimetype := some (bytes "x"), field_name := some (bytes "f") }

/-- Second file recorded for `c8body`. -/
def c8fileB : FileHeader :=
  { offset := 142, size := 4, filename := some (bytes "b"),
    mimetype := some (bytes "y"), field_name := some (bytes "f") }

/-- The form `multipart_parse_form` produces for `c8body`. -/
def c8form : CMultipartForm :=
  { files := some [c8fileA, c8fileB], num_files := 2,
    fields := some [], num_fields := 0 }

/-- Memory for the empty-file (claim C7) witness: a mimetype line, a blank
line, then immediately the boundary. -/
def c7mem : Nat → Nat := memOf (bytes "text\r\n\r\n--B")

/-- Configuration entering the MIMETYPE state for the C7 witness. -/
def c7cfg : Config := { initConfig with state := .STATE_MIMETYPE }

/-- Memory for the exact-size-limit (claim C10) witness: a 9-byte file span
followed by the boundary. -/
def c10mem : Nat → Nat := memOf (bytes "HELLO12\r\n--B")

/-- Configuration entering the FILE_BODY state for the C10 witness. -/
def c10cfg : Config := { initConfig with key := some (bytes "f") }

end Multipart

namespace Multipart

/-- A nonzero byte of a zero-extended buffer lies inside the list. -/
theorem memOf_ne_zero_lt (l : List Nat) (i : Nat) (h : memOf l i ≠ 0) :
    i < l.length := by
  by_contra hge
  apply h
  simp [memOf, List.getD_eq_getElem?_getD, List.getElem?_eq_none (Nat.le_of_not_lt hge)]

/-- A hit of the `memmem` scan lies within the scanned candidate range. -/
theorem memmemGo_bounds (mem : Nat → Nat) (needle : List Nat) :
    ∀ k i p, memmemGo mem needle i k = some p → i ≤ p ∧ p < i + k := by
  intro k
  induction k with
  | zero => intro i p h; simp [memmemGo] at h
  | succ n ih =>
    intro i p h
    simp only [memmemGo] at h
    split at h
    · injection h with h; omega
    · rcases ih (i + 1) p h with ⟨h1, h2⟩; omega

/-- A `memmem` hit starts inside the haystack and the whole needle fits
before its end. -/
theorem memmemFrom_bounds (mem : Nat → Nat) (start len : Nat)
    (needle : List Nat) (p : Nat)
    (h : memmemFrom mem start len needle = some p) :
    start ≤ p ∧ p + needle.length ≤ start + len := by
  unfold memmemFrom at h
  split at h
  · rcases memmemGo_bounds mem needle _ _ _ h with ⟨h1, h2⟩
    refine ⟨h1, ?_⟩
    omega
  · cases h

/-- In-bounds cursors see the ordinary `size - i` haystack length. -/
theorem haystackLen_of_le (size i : Nat) (h : i ≤ size) :
    haystackLen size i = size - i := by
  simp [haystackLen, h]

/-- `find?` returns the head of the `filter`. -/
theorem find?_eq_filter_head? {α : Type} (p : α → Bool) (l : List α) :
    l.find? p = (l.filter p).head? := by
  induction l with
  | nil => rfl
  | cons a t ih =>
    cases h : p a with
    | true =>
      rw [List.find?_cons_of_pos t h, List.filter_cons_of_pos h, List.head?_cons]
    | false =>
      rw [List.find?_cons_of_neg t (by simp [h]),
        List.filter_cons_of_neg (by simp [h]), ih]

end Multipart

namespace Multipart

/-- BOUNDARY iterations leave the files array unchanged. -/
theorem stepBoundary_cont (mem : Nat → Nat) (bnd : List Nat) (sf : Nat)
    (cfg cfg' : Config) (h : stepBoundary mem bnd sf cfg = .cont cfg') :
    cfg'.files = cfg.files := by
  unfold stepBoundary at h
  repeat any_goals split at h
  all_goals first
    | (injection h with h2; subst h2; rfl)
    | (injection h)

/-- BOUNDARY iterations never return from the parse. -/
theorem stepBoundary_ne_done (mem : Nat → Nat) (bnd : List Nat) (sf : Nat)
    (cfg : Config) (code : MultipartCode) (form : CMultipartForm)
    (h : stepBoundary mem bnd sf cfg = .done code form) : False := by
  unfold stepBoundary at h
  repeat any_goals split at h
  all_goals injection h

/-- HEADER iterations leave the files array unchanged. -/
theorem stepHeader_cont (mem : Nat → Nat) (sf : Nat)
    (cfg cfg' : Config) (h : stepHeader mem sf cfg = .cont cfg') :
    cfg'.files = cfg.files := by
  unfold stepHeader at h
  repeat any_goals split at h
  all_goals first
    | (injection h with h2; subst h2; rfl)
    | (injection h)

/-- HEADER iterations never return from the parse. -/
theorem stepHeader_ne_done (mem : Nat → Nat) (sf : Nat)
    (cfg : Config) (code : MultipartCode) (form : CMultipartForm)
    (h : stepHeader mem sf cfg = .done code form) : False := by
  unfold stepHeader at h
  repeat any_goals split at h
  all_goals injection h

/-- KEY iterations leave the files array unchanged. -/
theorem stepKey_cont (mem : Nat → Nat) (sf : Nat)
    (cfg cfg' : Config) (h : stepKey mem sf cfg = .cont cfg') :
    cfg'.files = cfg.files := by
  unfold stepKey at h
  repeat any_goals split at h
  all_goals first
    | (injection h with h2; subst h2; rfl)
    | (injection h)

/-- KEY iterations never return from the parse. -/
theorem stepKey_ne_done (mem : Nat → Nat) (sf : Nat)
    (cfg : Config) (code : MultipartCode) (form : CMultipartForm)
    (h : stepKey mem sf cfg = .done code form) : False := by
  unfold stepKey at h
  repeat any_goals split at h
  all_goals injection h

/-- VALUE iterations leave the files array unchanged. -/
theorem stepValue_cont (mem : Nat → Nat) (bnd : List Nat) (sf : Nat)
    (cfg cfg' : Config) (h : stepValue mem bnd sf cfg = .cont cfg') :
    cfg'.files = cfg.files := by
  unfold stepValue at h
  repeat any_goals split at h
  all_goals first
    | (injection h with h2; subst h2; rfl)
    | (injection h)

/-- VALUE iterations never return from the parse. -/
theorem stepValue_ne_done (mem : Nat → Nat) (bnd : List Nat) (sf : Nat)
    (cfg : Config) (code : MultipartCode) (form : CMultipartForm)
    (h : stepValue mem bnd sf cfg = .done code form) : False := by
  unfold stepValue at h
  repeat any_goals split at h
  all_goals injection h

/-- FILENAME iterations leave the files array unchanged. -/
theorem stepFilename_cont (mem : Nat → Nat) (sf : Nat)
    (cfg cfg' : Config) (h : stepFilename mem sf cfg = .cont cfg') :
    cfg'.files = cfg.files := by
  unfold stepFilename at h
  repeat any_goals split at h
  all_goals first
    | (injection h with h2; subst h2; rfl)
    | (injection h)

/-- FILENAME iterations never return from the parse. -/
theorem stepFilename_ne_done (mem : Nat → Nat) (sf : Nat)
    (cfg : Config) (code : MultipartCode) (form : CMultipartForm)
    (h : stepFilename mem sf cfg = .done code form) : False := by
  unfold stepFilename at h
  repeat any_goals split at h
  all_goals injection h

/-- FILE_MIME_HEADER iterations leave the files array unchanged. -/
theorem stepFileMimeHeader_cont (mem : Nat → Nat) (sf : Nat)
    (cfg cfg' : Config) (h : stepFileMimeHeader mem sf cfg = .cont cfg') :
    cfg'.files = cfg.files := by
  unfold stepFileMimeHeader at h
  repeat any_goals split at h
  all_goals first
    | (injection h with h2; subst h2; rfl)
    | (injection h)

/-- FILE_MIME_HEADER iterations never return from the parse. -/
theorem stepFileMimeHeader_ne_done (mem : Nat → Nat) (sf : Nat)
    (cfg : Config) (code : MultipartCode) (form : CMultipartForm)
    (h : stepFileMimeHeader mem sf cfg = .done code form) : False := by
  unfold stepFileMimeHeader at h
  repeat any_goals split at h
  all_goals injection h

/-- MIMETYPE iterations leave the files array unchanged. -/
theorem stepMimetype_cont (mem : Nat → Nat) (bnd : List Nat) (sf : Nat)
    (cfg cfg' : Config) (h : stepMimetype mem bnd sf cfg = .cont cfg') :
    cfg'.files = cfg.files := by
  unfold stepMimetype at h
  repeat any_goals split at h
  all_goals first
    | (injection h with h2; subst h2; rfl)
    | (injection h)

/-- MIMETYPE iterations never return from the parse. -/
theorem stepMimetype_ne_done (mem : Nat → Nat) (bnd : List Nat) (sf : Nat)
    (cfg : Config) (code : MultipartCode) (form : CMultipartForm)
    (h : stepMimetype mem bnd sf cfg = .done code form) : False := by
  unfold stepMimetype at h
  repeat any_goals split at h
  all_goals injection h

/-- A FILE_BODY iteration that continues has found the next boundary
occurrence, passed both size checks and appended exactly one `FileHeader`
spanning from the cursor to that occurrence. -/
theorem stepFileBody_cont (mem : Nat → Nat) (size : Nat) (bnd : List Nat)
    (maxFS sf : Nat) (cfg cfg' : Config)
    (h : stepFileBody mem size bnd maxFS sf cfg = .cont cfg') :
    ∃ endpos k,
      memmemFrom mem cfg.i (haystackLen size cfg.i) bnd = some endpos ∧
      cfg.i ≤ endpos ∧ endpos - cfg.i ≤ maxFS ∧ cfg.key = some k ∧
      cfg'.files = cfg.files ++ [{
        offset := cfg.i, size := endpos - cfg.i,
        filename := cfg.header.filename, mimetype := cfg.header.mimetype,
        field_name := some k }] := by
  unfold stepFileBody at h
  split at h
  · injection h
  · rename_i endpos heq
    split at h
    · injection h
    · rename_i hlt
      split at h
      · injection h
      · rename_i hsz
        split at h
        · injection h
        · rename_i k hkey
          split at h
          · injection h
          · injection h with h2
            subst h2
            exact ⟨endpos, k, heq, by omega, by omega, hkey, rfl⟩

/-- The only `return` statements reachable from an FSM iteration are the
FILE_BODY error paths: they tear the form down and never report success. -/
theorem stepFileBody_done (mem : Nat → Nat) (size : Nat) (bnd : List Nat)
    (maxFS sf : Nat) (cfg : Config) (code : MultipartCode)
    (form : CMultipartForm)
    (h : stepFileBody mem size bnd maxFS sf cfg = .done code form) :
    form = freedForm ∧ code ≠ .MULTIPART_OK := by
  unfold stepFileBody at h
  repeat any_goals split at h
  all_goals first
    | (injection h with h1 h2; subst h1; subst h2; exact ⟨rfl, by decide⟩)
    | (injection h)

end Multipart

namespace Multipart

/-- A continuing FSM iteration preserves the invariant that every recorded
file span is in bounds, within the size limit, and delimited by the first
following boundary occurrence. -/
theorem parseStep_cont_FileOk (mem : Nat → Nat) (size : Nat) (bnd : List Nat)
    (maxFS sf : Nat) (cfg cfg' : Config)
    (hmem : ∀ j, mem j ≠ 0 → j < size)
    (hi : mem cfg.i ≠ 0)
    (h : parseStep mem size bnd maxFS sf cfg = .cont cfg')
    (hinv : ∀ f ∈ cfg.files, FileOk mem size maxFS bnd f) :
    ∀ f ∈ cfg'.files, FileOk mem size maxFS bnd f := by
  cases hs : cfg.state
  all_goals simp only [parseStep, hs] at h
  case STATE_BOUNDARY => rw [stepBoundary_cont mem bnd sf cfg cfg' h]; exact hinv
  case STATE_HEADER => rw [stepHeader_cont mem sf cfg cfg' h]; exact hinv
  case STATE_KEY => rw [stepKey_cont mem sf cfg cfg' h]; exact hinv
  case STATE_VALUE => rw [stepValue_cont mem bnd sf cfg cfg' h]; exact hinv
  case STATE_FILENAME => rw [stepFilename_cont mem sf cfg cfg' h]; exact hinv
  case STATE_FILE_MIME_HEADER =>
    rw [stepFileMimeHeader_cont mem sf cfg cfg' h]; exact hinv
  case STATE_MIMETYPE => rw [stepMimetype_cont mem bnd sf cfg cfg' h]; exact hinv
  case STATE_FILE_BODY =>
    obtain ⟨endpos, k, heq, h1, h2, hkey, hfiles⟩ :=
      stepFileBody_cont mem size bnd maxFS sf cfg cfg' h
    have hile : cfg.i ≤ size := Nat.le_of_lt (hmem _ hi)
    rw [haystackLen_of_le size cfg.i hile] at heq
    rw [hfiles]
    intro f hf
    rcases List.mem_append.mp hf with hf | hf
    · exact hinv f hf
    · obtain ⟨hb1, hb2⟩ := memmemFrom_bounds mem cfg.i (size - cfg.i) bnd endpos heq
      rcases List.mem_singleton.mp hf with rfl
      refine ⟨?_, ?_, ?_⟩
      · simp only []
        omega
      · exact h2
      · show memmemFrom mem cfg.i (size - cfg.i) bnd = some (cfg.i + (endpos - cfg.i))
        rw [Nat.add_sub_cancel' h1]
        exact heq

/-- Every early `return` of the FSM loop body reports an error and leaves
the fully torn-down form. -/
theorem parseStep_done (mem : Nat → Nat) (size : Nat) (bnd : List Nat)
    (maxFS sf : Nat) (cfg : Config) (code : MultipartCode)
    (form : CMultipartForm)
    (h : parseStep mem size bnd maxFS sf cfg = .done code form) :
    form = freedForm ∧ code ≠ .MULTIPART_OK := by
  cases hs : cfg.state
  all_goals simp only [parseStep, hs] at h
  case STATE_BOUNDARY => exact (stepBoundary_ne_done mem bnd sf cfg code form h).elim
  case STATE_HEADER => exact (stepHeader_ne_done mem sf cfg code form h).elim
  case STATE_KEY => exact (stepKey_ne_done mem sf cfg code form h).elim
  case STATE_VALUE => exact (stepValue_ne_done mem bnd sf cfg code form h).elim
  case STATE_FILENAME => exact (stepFilename_ne_done mem sf cfg code form h).elim
  case STATE_FILE_MIME_HEADER =>
    exact (stepFileMimeHeader_ne_done mem sf cfg code form h).elim
  case STATE_MIMETYPE => exact (stepMimetype_ne_done mem bnd sf cfg code form h).elim
  case STATE_FILE_BODY => exact stepFileBody_done mem size bnd maxFS sf cfg code form h

/-- Loop invariant: a successful run of the FSM loop yields a form whose
files all satisfy `FileOk`. -/
theorem parseLoop_ok_inv (mem : Nat → Nat) (size : Nat) (bnd : List Nat)
    (maxFS sf : Nat) (hmem : ∀ j, mem j ≠ 0 → j < size) :
    ∀ fuel cfg form,
      parseLoop mem size bnd maxFS sf fuel cfg = some (.MULTIPART_OK, form) →
      (∀ f ∈ cfg.files, FileOk mem size maxFS bnd f) →
      ∀ f ∈ form.files.getD [], FileOk mem size maxFS bnd f := by
  intro fuel
  induction fuel with
  | zero => intro cfg form h _; simp [parseLoop] at h
  | succ n ih =>
    intro cfg form h hinv
    simp only [parseLoop] at h
    split at h
    · injection h with h'
      injection h' with hcode hform
      subst hform
      simpa [mkForm] using hinv
    · rename_i hne
      split at h
      · rename_i cfg2 hstep
        exact ih cfg2 form h
          (parseStep_cont_FileOk mem size bnd maxFS sf cfg cfg2 hmem hne hstep hinv)
      · rename_i code2 form2 hstep
        injection h with h'
        injection h' with hcode hform
        exact ((parseStep_done mem size bnd maxFS sf cfg code2 form2 hstep).2 hcode).elim
      · exact Option.noConfusion h

/-- Any error result of the FSM loop leaves the fully torn-down form. -/
theorem parseLoop_error_freed (mem : Nat → Nat) (size : Nat) (bnd : List Nat)
    (maxFS sf : Nat) :
    ∀ fuel cfg code form,
      parseLoop mem size bnd maxFS sf fuel cfg = some (code, form) →
      code ≠ .MULTIPART_OK → form = freedForm := by
  intro fuel
  induction fuel with
  | zero => intro cfg code form h _; simp [parseLoop] at h
  | succ n ih =>
    intro cfg code form h hne
    simp only [parseLoop] at h
    split at h
    · injection h with h'
      injection h' with hcode hform
      exact absurd hcode.symm hne
    · split at h
      · exact ih _ _ _ h hne
      · rename_i code2 form2 hstep
        injection h with h'
        injection h' with hcode hform
        rw [← hform]
        exact (parseStep_done mem size bnd maxFS sf cfg code2 form2 hstep).1
      · exact Option.noConfusion h

end Multipart

namespace Multipart

/-- C1: for every NUL-terminated body of length N on which
`multipart_parse_form` returns `MULTIPART_OK`, every `FileHeader` stored in
the form satisfies `offset + size ≤ N` and `size ≤ MAX_FILE_SIZE`, and the
first occurrence of the boundary at or after `offset` sits exactly at
`offset + size`, so the span `[offset, offset + size)` is precisely the
bytes from the end of that part's header block (where the FSM set the
offset) up to the next boundary occurrence. -/
theorem parse_form_offset_validity (body boundary : List Nat) (fuel : Nat)
    (form : CMultipartForm)
    (h : multipart_parse_form (memOf body) body.length boundary MAX_FILE_SIZE
      fuel = some (.MULTIPART_OK, form)) :
    ∀ f ∈ form.files.getD [],
      f.offset + f.size ≤ body.length ∧ f.size ≤ MAX_FILE_SIZE ∧
      memmemFrom (memOf body) f.offset (body.length - f.offset)
        (cstrTake boundary) = some (f.offset + f.size) := by
  unfold multipart_parse_form at h
  exact parseLoop_ok_inv (memOf body) body.length (cstrTake boundary)
    MAX_FILE_SIZE fuel (memOf_ne_zero_lt body) fuel initConfig form h
    (by intro f hf; simp [initConfig] at hf)

/-- C1 witness: the invariant instantiated on a concrete parsed body. -/
theorem parse_form_offset_validity_witness :
    multipart_parse_form (memOf c3body) c3body.length (bytes "--B")
      MAX_FILE_SIZE 110 = some (.MULTIPART_OK, c3form) ∧
    ∀ f ∈ c3form.files.getD [],
      f.offset + f.size ≤ c3body.length ∧ f.size ≤ MAX_FILE_SIZE ∧
      memmemFrom (memOf c3body) f.offset (c3body.length - f.offset)
        (cstrTake (bytes "--B")) = some (f.offset + f.size) :=
  ⟨rfl, parse_form_offset_validity c3body (bytes "--B") 110 c3form rfl⟩

end Multipart

namespace Multipart

/-- C4: a FILE_BODY iteration whose computed file size strictly exceeds the
configured maximum returns `MAX_FILE_SIZE_EXCEEDED` with the fully freed
form at that very iteration, and any `multipart_parse_form` run that
returns `MAX_FILE_SIZE_EXCEEDED` leaves the form fully unwound: both
arrays released (NULL) and `num_files = num_fields = 0`. -/
theorem parse_form_size_limit_unwinds :
    (∀ (mem : Nat → Nat) (size : Nat) (bnd : List Nat) (maxFS sf : Nat)
      (cfg : Config) (endpos : Nat),
      cfg.state = State.STATE_FILE_BODY →
      memmemFrom mem cfg.i (haystackLen size cfg.i) bnd = some endpos →
      maxFS < endpos - cfg.i →
      parseStep mem size bnd maxFS sf cfg =
        .done .MAX_FILE_SIZE_EXCEEDED freedForm)
    ∧ (∀ (mem : Nat → Nat) (size : Nat) (boundary : List Nat)
      (maxFS fuel : Nat) (form : CMultipartForm),
      multipart_parse_form mem size boundary maxFS fuel =
        some (.MAX_FILE_SIZE_EXCEEDED, form) →
      form = freedForm ∧ form.num_files = 0 ∧ form.num_fields = 0) := by
  constructor
  · intro mem size bnd maxFS sf cfg endpos hs hm hgt
    simp only [parseStep, hs]
    unfold stepFileBody
    simp only [hm]
    rw [if_neg (by omega : ¬ endpos < cfg.i), if_pos hgt]
  · intro mem size boundary maxFS fuel form h
    unfold multipart_parse_form at h
    have hfr := parseLoop_error_freed mem size (cstrTake boundary) maxFS fuel
      fuel initConfig .MAX_FILE_SIZE_EXCEEDED form h (by decide)
    exact ⟨hfr, by rw [hfr]; rfl, by rw [hfr]; rfl⟩

/-- C4 witness: with the maximum configured at 5 bytes, the 10-byte file
span of `c3body` aborts the parse with the size-limit error and an unwound
form. -/
theorem parse_form_size_limit_unwinds_witness :
    multipart_parse_form (memOf c3body) c3body.length (bytes "--B") 5 110 =
      some (.MAX_FILE_SIZE_EXCEEDED, freedForm) ∧
    freedForm.num_files = 0 ∧ freedForm.num_fields = 0 :=
  ⟨rfl, (parse_form_size_limit_unwinds.2 (memOf c3body) c3body.length
    (bytes "--B") 5 110 freedForm rfl).2⟩

end Multipart

namespace Multipart

/-- C7: in the MIMETYPE state, when the bytes right after the mimetype line
and the CRLF run are the boundary (a zero-byte file), the FSM silently
drops the part: it records no `FileHeader`, reports no error, and continues
in the BOUNDARY state at that position with the form unchanged (the C code
frees the pending key/filename/mimetype buffers there, a memory-level
action with no effect on the resulting form). -/
theorem empty_file_part_dropped (mem : Nat → Nat) (bnd : List Nat) (sf : Nat)
    (cfg : Config) (j k m : Nat)
    (hj : findCRorLF mem cfg.i sf = some j)
    (hk : findByteEq mem 10 j sf = some k)
    (hm : skipCRLFpairs mem (k + 1) sf = some m)
    (hb : memcmpEq mem m bnd = true) :
    ∃ cfg', stepMimetype mem bnd sf cfg = .cont cfg' ∧
      cfg'.state = State.STATE_BOUNDARY ∧ cfg'.i = m ∧
      cfg'.files = cfg.files ∧ cfg'.fields = cfg.fields := by
  unfold stepMimetype
  simp only [hj, hk, hm]
  rw [if_pos hb]
  exact ⟨_, rfl, rfl, rfl, rfl, rfl⟩

/-- C7 witness: the drop instantiated on concrete memory
`text\r\n\r\n--B` entering MIMETYPE at offset 0. -/
theorem empty_file_part_dropped_witness :
    ∃ cfg', stepMimetype c7mem (bytes "--B") 50 c7cfg = .cont cfg' ∧
      cfg'.state = State.STATE_BOUNDARY ∧ cfg'.i = 8 ∧
      cfg'.files = c7cfg.files ∧ cfg'.fields = c7cfg.fields :=
  empty_file_part_dropped c7mem (bytes "--B") 50 c7cfg 4 5 8 rfl rfl rfl rfl

end Multipart

namespace Multipart

/-- C10: the size-limit comparison is strict: `MAX_FILE_SIZE` defaults to
10*1024*1024 bytes, and a FILE_BODY iteration whose computed size
(`endpos - offset`) equals the configured maximum exactly is accepted and
recorded as a `FileHeader` of that size, continuing in BOUNDARY with no
`MAX_FILE_SIZE_EXCEEDED`. -/
theorem max_file_size_strict :
    MAX_FILE_SIZE = 10 * 1024 * 1024 ∧
    ∀ (mem : Nat → Nat) (size : Nat) (bnd : List Nat) (maxFS sf : Nat)
      (cfg : Config) (endpos : Nat) (k : List Nat) (m : Nat),
      memmemFrom mem cfg.i (haystackLen size cfg.i) bnd = some endpos →
      cfg.i ≤ endpos →
      endpos - cfg.i = maxFS →
      cfg.key = some k →
      skipCRLFpairs mem cfg.i sf = some m →
      ∃ cfg', stepFileBody mem size bnd maxFS sf cfg = .cont cfg' ∧
        cfg'.state = State.STATE_BOUNDARY ∧
        cfg'.files = cfg.files ++ [{
          offset := cfg.i, size := maxFS,
          filename := cfg.header.filename, mimetype := cfg.header.mimetype,
          field_name := some k }] := by
  refine ⟨rfl, ?_⟩
  intro mem size bnd maxFS sf cfg endpos k m hm hle hsz hkey hskip
  unfold stepFileBody
  simp only [hm, hkey, hskip]
  rw [if_neg (by omega : ¬ endpos < cfg.i)]
  rw [if_neg (by omega : ¬ maxFS < endpos - cfg.i)]
  refine ⟨_, rfl, rfl, ?_⟩
  simp [hsz]

/-- C10 witness: a 9-byte file span with the maximum configured at exactly
9 bytes is recorded, not rejected. -/
theorem max_file_size_strict_witness :
    ∃ cfg', stepFileBody c10mem 12 (bytes "--B") 9 50 c10cfg = .cont cfg' ∧
      cfg'.state = State.STATE_BOUNDARY ∧
      cfg'.files = c10cfg.files ++ [{
        offset := c10cfg.i, size := 9,
        filename := c10cfg.header.filename, mimetype := c10cfg.header.mimetype,
        field_name := some (bytes "f") }] :=
  max_file_size_strict.2 c10mem 12 (bytes "--B") 9 50 c10cfg 9 (bytes "f") 0
    rfl (by decide) rfl rfl rfl

end Multipart

namespace Multipart

/-- C9: `multipart_free_form` is idempotent: destroying any form leaves
NULL arrays and zero counts (or was already undefined behaviour, which
destroys nothing), so a second destruction reproduces the same result; and
destroying the empty/never-populated (zero-initialized) form is a no-op
returning the same state. -/
theorem free_form_idempotent :
    (∀ form : CMultipartForm,
      (multipart_free_form form).bind multipart_free_form =
        multipart_free_form form)
    ∧ multipart_free_form freedForm = some freedForm := by
  refine ⟨?_, rfl⟩
  intro form
  unfold multipart_free_form
  split
  · rfl
  · rfl

end Multipart

namespace Multipart

/-- C5 counterexample: the body `--B\r\nrest` has its first CRLF at index
3, and a destination capacity of 4 = delimiter length + 1 (room for the
three delimiter bytes plus the terminator) satisfies the claim's
precondition, yet `multipart_parse_boundary` returns false: the code
demands `size > length + 1`. -/
theorem parse_boundary_capacity_counterexample :
    strstrList litCRLF (bytes "--B\r\nrest") = some 3 ∧
    3 + 1 ≤ 4 ∧
    multipart_parse_boundary (bytes "--B\r\nrest") 4 = none :=
  ⟨rfl, by decide, rfl⟩

/-- C5 (amended): `multipart_parse_boundary` succeeds if and only if the
body contains a CRLF (before any NUL byte) and the destination capacity is
at least the delimiter length + 2 (strictly more than length + 1); on
success the bytes preceding the first CRLF, leading `--` included as they
literally appear, are copied NUL-terminated into the destination. -/
theorem parse_boundary_spec (body : List Nat) (cap : Nat) :
    (∀ len, strstrList litCRLF body = some len →
      (multipart_parse_boundary body cap = some (body.take len) ↔
        len + 2 ≤ cap))
    ∧ (strstrList litCRLF body = none →
      multipart_parse_boundary body cap = none) := by
  constructor
  · intro len hlen
    unfold multipart_parse_boundary
    simp only [hlen]
    constructor
    · intro h2
      by_contra hc
      rw [if_pos (by omega : cap ≤ len + 1)] at h2
      exact Option.noConfusion h2
    · intro h2
      rw [if_neg (by omega : ¬ cap ≤ len + 1)]
  · intro h
    unfold multipart_parse_boundary
    simp only [h]

/-- C5 witness: with capacity 6 ≥ 3 + 2 the delimiter `--B` is extracted. -/
theorem parse_boundary_spec_witness :
    multipart_parse_boundary (bytes "--B\r\nrest") 6 =
      some ((bytes "--B\r\nrest").take 3) :=
  ((parse_boundary_spec (bytes "--B\r\nrest") 6).1 3 rfl).mpr (by decide)

/-- C6: code_bug evidence: the header value `multipart/form-data` passes
the case-insensitive prefix check but contains no `boundary=` token; the
documentation says the function then returns false, but the code uses the
NULL `strstr` result in pointer arithmetic and as a copy source without any
check — undefined behaviour (modelled as `none`) instead of `some false`. -/
theorem parse_boundary_from_header_null_deref :
    multipart_parse_boundary_from_header (bytes "multipart/form-data") 128 =
      none := rfl

/-- C3: parsing a body whose file span is the 10 bytes
`ABCD<NUL>ÈGH\r\n` — an embedded NUL at span position 4 and the non-ASCII
byte 200 at position 5 — returns `MULTIPART_OK` with a `FileHeader` whose
size is exactly 10: the binary-safe `memmem` scan does not truncate at the
zero byte. -/
theorem parse_form_binary_safe :
    multipart_parse_form (memOf c3body) c3body.length (bytes "--B")
      MAX_FILE_SIZE 110 = some (.MULTIPART_OK, c3form) ∧
    c3form.num_files = 1 ∧
    (c3form.files.getD []).map (fun f => (f.offset, f.size)) = [(69, 10)] ∧
    memSlice (memOf c3body) 69 10 = bytes "ABCD\x00ÈGH\r\n" ∧
    memOf c3body (69 + 4) = 0 ∧ memOf c3body (69 + 5) = 200 :=
  ⟨rfl, rfl, rfl, rfl, rfl, rfl⟩

end Multipart

namespace Multipart

/-- C2: code_bug evidence: two memories agreeing on all 54 body bytes but
differing beyond them drive `multipart_parse_form` — called both times with
the same explicit length — to different results (1 field versus 2 fields):
the parse reads past the supplied length until it meets a NUL byte, so it
does depend on the buffer's trailing bytes, contradicting the claimed
NUL-termination independence (which the repository's own test asserts). -/
theorem parse_form_trailing_nul_dependence :
    (∀ i, i < c2body.length → memOf c2body i = memOf c2full i) ∧
    (multipart_parse_form (memOf c2body) c2body.length (bytes "--B")
      MAX_FILE_SIZE 120).map (fun r => (r.1, r.2.num_fields)) =
      some (.MULTIPART_OK, 1) ∧
    (multipart_parse_form (memOf c2full) c2body.length (bytes "--B")
      MAX_FILE_SIZE 120).map (fun r => (r.1, r.2.num_fields)) =
      some (.MULTIPART_OK, 2) ∧
    multipart_parse_form (memOf c2body) c2body.length (bytes "--B")
      MAX_FILE_SIZE 120 ≠
    multipart_parse_form (memOf c2full) c2body.length (bytes "--B")
      MAX_FILE_SIZE 120 := by
  have hA : (multipart_parse_form (memOf c2body) c2body.length (bytes "--B")
      MAX_FILE_SIZE 120).map (fun r => (r.1, r.2.num_fields)) =
      some (.MULTIPART_OK, 1) := rfl
  have hB : (multipart_parse_form (memOf c2full) c2body.length (bytes "--B")
      MAX_FILE_SIZE 120).map (fun r => (r.1, r.2.num_fields)) =
      some (.MULTIPART_OK, 2) := rfl
  refine ⟨?_, hA, hB, ?_⟩
  · intro i hi
    show memOf c2body i = memOf (c2body ++ _) i
    unfold memOf
    rw [List.getD_append _ _ _ _ hi]
  · intro heq
    rw [heq, hB] at hA
    exact absurd hA (by simp)

end Multipart

namespace Multipart

/-- C8: when exactly two files of a form match a field name,
`multipart_get_files` returns both in array (appearance) order and sets the
count to 2, while `multipart_get_file` returns the first match; a name
matching no file yields the empty result `(NULL, 0)`, not an error. -/
theorem get_files_matches (form : CMultipartForm) (name : List Nat)
    (a b : FileHeader) :
    ((form.fileArr.filter fun f => fieldNameMatches f name) = [a, b] →
      multipart_get_files form name = ([a, b], 2) ∧
      multipart_get_file form name = some a)
    ∧ ((form.fileArr.filter fun f => fieldNameMatches f name) = [] →
      multipart_get_files form name = ([], 0)) := by
  constructor
  · intro h
    constructor
    · simp [multipart_get_files, h]
    · unfold multipart_get_file
      rw [find?_eq_filter_head?, h]
      rfl
  · intro h
    simp [multipart_get_files, h]

/-- C8 witness: the two-file body (via `c8mem`) parses into two files sharing the field name `f`;
the plural lookup returns both in appearance order with count 2, the
singular lookup returns the first, and an unused name yields `(NULL, 0)`. -/
theorem get_files_matches_witness :
    multipart_parse_form c8mem 153 (bytes "--B")
      MAX_FILE_SIZE 160 = some (.MULTIPART_OK, c8form) ∧
    multipart_get_files c8form (bytes "f") = ([c8fileA, c8fileB], 2) ∧
    multipart_get_file c8form (bytes "f") = some c8fileA ∧
    multipart_get_files c8form (bytes "zz") = ([], 0) :=
  ⟨rfl,
    ((get_files_matches c8form (bytes "f") c8fileA c8fileB).1 rfl).1,
    ((get_files_matches c8form (bytes "f") c8fileA c8fileB).1 rfl).2,
    (get_files_matches c8form (bytes "zz") c8fileA c8fileB).2 rfl⟩

end Multipart
